import Mathlib

/-!
Verification of the SMART robot-arm visualizer core
(`src/visualization.py`, with the matplotlib variant
`src/visualization_matplotlib.py` where a claim cites it).

The development shallowly embeds the three core pieces of the code:
the URDF loader (`parse_urdf` and its helpers), the forward-kinematics
engine (`rotation_matrix`, `forward_kinematics`) and the mesh builders
(`create_cylinder_mesh`, `create_link_cylinder`, `create_joint_connector`,
and the skeleton branch of `create_robot_traces`).  NumPy float arithmetic
is modelled by exact real arithmetic over `ℝ`; 4×4 homogeneous matrices by
`Matrix (Fin 4) (Fin 4) ℝ`.
-/

namespace SMART

open Real Matrix

abbrev Vec3 := Fin 3 → ℝ
abbrev Mat3 := Matrix (Fin 3) (Fin 3) ℝ
abbrev Mat4 := Matrix (Fin 4) (Fin 4) ℝ

/-- `R_x` of `rotation_matrix` (visualization.py lines 103-105): the
roll factor of the roll-pitch-yaw rotation. -/
noncomputable def R_x (roll : ℝ) : Mat3 :=
  !![1, 0, 0;
     0, Real.cos roll, -Real.sin roll;
     0, Real.sin roll, Real.cos roll]

/-- `R_y` of `rotation_matrix` (visualization.py lines 107-109). -/
noncomputable def R_y (pitch : ℝ) : Mat3 :=
  !![Real.cos pitch, 0, Real.sin pitch;
     0, 1, 0;
     -Real.sin pitch, 0, Real.cos pitch]

/-- `R_z` of `rotation_matrix` (visualization.py lines 111-113). -/
noncomputable def R_z (yaw : ℝ) : Mat3 :=
  !![Real.cos yaw, -Real.sin yaw, 0;
     Real.sin yaw, Real.cos yaw, 0;
     0, 0, 1]

/-- `rotation_matrix(roll, pitch, yaw)` (visualization.py line 115):
returns `R_z @ R_y @ R_x`. -/
noncomputable def rotation_matrix (roll pitch yaw : ℝ) : Mat3 :=
  R_z yaw * R_y pitch * R_x roll

/-- The 4×4 homogeneous matrix the code builds by
`T = np.eye(4); T[:3, :3] = R; T[:3, 3] = t`. -/
noncomputable def homog (R : Mat3) (t : Vec3) : Mat4 :=
  !![R 0 0, R 0 1, R 0 2, t 0;
     R 1 0, R 1 1, R 1 2, t 1;
     R 2 0, R 2 1, R 2 2, t 2;
     0, 0, 0, 1]

/-- Applying a homogeneous transform to a 3-point, as the code's
`transform @ np.array([x, y, z, 1])` followed by taking components 0..2. -/
noncomputable def applyT (T : Mat4) (p : Vec3) : Vec3 :=
  ![T 0 0 * p 0 + T 0 1 * p 1 + T 0 2 * p 2 + T 0 3,
    T 1 0 * p 0 + T 1 1 * p 1 + T 1 2 * p 2 + T 1 3,
    T 2 0 * p 0 + T 2 1 * p 1 + T 2 2 * p 2 + T 2 3]

/-- The 3×3 rotation block `M[:3, :3]` of a 4×4 homogeneous matrix. -/
def rotBlock (M : Mat4) : Mat3 :=
  Matrix.of fun i j : Fin 3 => M i.castSucc j.castSucc

/-- A joint as stored by `parse_urdf` (visualization.py lines 29-37), with
its origin and axis already resolved to fixed-size vectors as the
forward-kinematics engine reads them (`rpy[0..2]`, `xyz`, `axis[0..2]`). -/
structure JointSpec where
  name : Option String
  type : Option String
  parent : Option String
  child : Option String
  origin_xyz : Vec3
  origin_rpy : Vec3
  axis : Vec3
  limit_lower : ℝ
  limit_upper : ℝ

/-- The joint's static origin transform `T_joint`
(visualization.py lines 128-130). -/
noncomputable def T_origin (j : JointSpec) : Mat4 :=
  homog (rotation_matrix (j.origin_rpy 0) (j.origin_rpy 1) (j.origin_rpy 2))
    j.origin_xyz

/-- The joint rotation transform `T_rotation`
(visualization.py lines 136-146): the axis vector is inspected and the
rotation is restricted to whichever canonical axis dominates, checking
Z, then Y, then X; otherwise the identity. -/
noncomputable def jointRotation (axis : Vec3) (angle : ℝ) : Mat4 :=
  if 0.5 < |axis 2| then homog (rotation_matrix 0 0 angle) ![0, 0, 0]
  else if 0.5 < |axis 1| then homog (rotation_matrix 0 angle 0) ![0, 0, 0]
  else if 0.5 < |axis 0| then homog (rotation_matrix angle 0 0) ![0, 0, 0]
  else 1

/-- The loop body of `forward_kinematics` (visualization.py lines 122-149),
with the running `current_transform` made explicit.  The second branch is
where Python would raise `IndexError` (`joint_angles[i]` out of range); all
claims about the engine assume `len(joint_angles) == len(joints)`. -/
noncomputable def fkAux (cur : Mat4) :
    List JointSpec → List ℝ → List Mat4
  | [], _ => []
  | _ :: _, [] => []
  | j :: js, a :: an =>
      let c := cur * T_origin j * jointRotation j.axis a
      c :: fkAux c js an

/-- `forward_kinematics(joint_angles)` (visualization.py lines 117-151):
starts from `np.eye(4)` and appends one cumulative transform per joint. -/
noncomputable def forward_kinematics (joints : List JointSpec)
    (angles : List ℝ) : List Mat4 :=
  fkAux 1 joints angles

/-- Spec-side pose for joint `i` (spec §4.2): the left-to-right composition,
starting from the identity, of each joint's origin transform followed by its
joint rotation, over the first `i + 1` joints. -/
noncomputable def cumulPose (joints : List JointSpec) (angles : List ℝ)
    (i : ℕ) : Mat4 :=
  ((joints.zip angles).take (i + 1)).foldl
    (fun c ja => c * T_origin ja.1 * jointRotation ja.1.axis ja.2) 1

/-- Spec-side pure rotation about the canonical X axis. -/
noncomputable def pureRotX (angle : ℝ) : Mat3 :=
  !![1, 0, 0;
     0, Real.cos angle, -Real.sin angle;
     0, Real.sin angle, Real.cos angle]

/-- Spec-side pure rotation about the canonical Y axis. -/
noncomputable def pureRotY (angle : ℝ) : Mat3 :=
  !![Real.cos angle, 0, Real.sin angle;
     0, 1, 0;
     -Real.sin angle, 0, Real.cos angle]

/-- Spec-side pure rotation about the canonical Z axis. -/
noncomputable def pureRotZ (angle : ℝ) : Mat3 :=
  !![Real.cos angle, -Real.sin angle, 0;
     Real.sin angle, Real.cos angle, 0;
     0, 0, 1]

lemma matrix_one_eq : (!![1, 0, 0; 0, 1, 0; 0, 0, 1] : Mat3) = 1 := by
  ext i j
  fin_cases i <;> fin_cases j <;>
    simp [Matrix.one_apply, Matrix.vecHead, Matrix.vecTail]

lemma R_x_zero : R_x 0 = 1 := by
  rw [← matrix_one_eq]; simp [R_x]

lemma R_y_zero : R_y 0 = 1 := by
  rw [← matrix_one_eq]; simp [R_y]

lemma R_z_zero : R_z 0 = 1 := by
  rw [← matrix_one_eq]; simp [R_z]

lemma rotation_matrix_x (angle : ℝ) :
    rotation_matrix angle 0 0 = pureRotX angle := by
  simp [rotation_matrix, R_y_zero, R_z_zero, R_x, pureRotX]

lemma rotation_matrix_y (angle : ℝ) :
    rotation_matrix 0 angle 0 = pureRotY angle := by
  simp [rotation_matrix, R_x_zero, R_z_zero, R_y, pureRotY]

lemma rotation_matrix_z (angle : ℝ) :
    rotation_matrix 0 0 angle = pureRotZ angle := by
  simp [rotation_matrix, R_x_zero, R_y_zero, R_z, pureRotZ]

lemma rotation_matrix_zero : rotation_matrix 0 0 0 = 1 := by
  simp [rotation_matrix, R_x_zero, R_y_zero, R_z_zero]

lemma homog_one : homog 1 ![0, 0, 0] = (1 : Mat4) := by
  ext i j
  fin_cases i <;> fin_cases j <;>
    simp [homog, Matrix.one_apply, Matrix.vecHead, Matrix.vecTail]

lemma homog_mul (R S : Mat3) (t u : Vec3) :
    homog R t * homog S u = homog (R * S) (fun i => R i 0 * u 0 + R i 1 * u 1 + R i 2 * u 2 + t i) := by
  ext i j
  fin_cases i <;> fin_cases j <;>
    simp [homog, Matrix.mul_apply, Fin.sum_univ_four, Fin.sum_univ_three,
      Matrix.vecHead, Matrix.vecTail]

lemma rotBlock_homog (R : Mat3) (t : Vec3) : rotBlock (homog R t) = R := by
  ext i j
  fin_cases i <;> fin_cases j <;> rfl

/-- The rotation-block invariant of spec §3: orthonormal with determinant 1. -/
def IsRot (R : Mat3) : Prop := Rᵀ * R = 1 ∧ R.det = 1

lemma isRot_one : IsRot (1 : Mat3) := by
  constructor <;> simp

lemma isRot_mul {R S : Mat3} (hR : IsRot R) (hS : IsRot S) : IsRot (R * S) := by
  obtain ⟨hR1, hR2⟩ := hR
  obtain ⟨hS1, hS2⟩ := hS
  constructor
  · calc (R * S)ᵀ * (R * S) = Sᵀ * (Rᵀ * (R * S)) := by
          rw [Matrix.transpose_mul, Matrix.mul_assoc]
      _ = Sᵀ * ((Rᵀ * R) * S) := by rw [Matrix.mul_assoc]
      _ = 1 := by rw [hR1, Matrix.one_mul, hS1]
  · rw [Matrix.det_mul, hR2, hS2, mul_one]

lemma isRot_R_x (a : ℝ) : IsRot (R_x a) := by
  constructor
  · ext i j
    fin_cases i <;> fin_cases j <;>
      simp [R_x, Matrix.mul_apply, Fin.sum_univ_three, Matrix.transpose_apply,
        Matrix.one_apply, Matrix.vecHead, Matrix.vecTail] <;>
      nlinarith [Real.sin_sq_add_cos_sq a]
  · simp [R_x, Matrix.det_fin_three, Matrix.vecHead, Matrix.vecTail]
    nlinarith [Real.sin_sq_add_cos_sq a]

lemma isRot_R_y (a : ℝ) : IsRot (R_y a) := by
  constructor
  · ext i j
    fin_cases i <;> fin_cases j <;>
      simp [R_y, Matrix.mul_apply, Fin.sum_univ_three, Matrix.transpose_apply,
        Matrix.one_apply, Matrix.vecHead, Matrix.vecTail] <;>
      nlinarith [Real.sin_sq_add_cos_sq a]
  · simp [R_y, Matrix.det_fin_three, Matrix.vecHead, Matrix.vecTail]
    nlinarith [Real.sin_sq_add_cos_sq a]

lemma isRot_R_z (a : ℝ) : IsRot (R_z a) := by
  constructor
  · ext i j
    fin_cases i <;> fin_cases j <;>
      simp [R_z, Matrix.mul_apply, Fin.sum_univ_three, Matrix.transpose_apply,
        Matrix.one_apply, Matrix.vecHead, Matrix.vecTail] <;>
      nlinarith [Real.sin_sq_add_cos_sq a]
  · simp [R_z, Matrix.det_fin_three, Matrix.vecHead, Matrix.vecTail]
    nlinarith [Real.sin_sq_add_cos_sq a]

lemma isRot_rotation_matrix (r p y : ℝ) : IsRot (rotation_matrix r p y) :=
  isRot_mul (isRot_mul (isRot_R_z y) (isRot_R_y p)) (isRot_R_x r)

lemma fkAux_eq_ofFn (js : List JointSpec) :
    ∀ (an : List ℝ) (c : Mat4), an.length = js.length →
    fkAux c js an = List.ofFn (fun i : Fin js.length =>
      ((js.zip an).take (i.1 + 1)).foldl
        (fun c ja => c * T_origin ja.1 * jointRotation ja.1.axis ja.2) c) := by
  induction js with
  | nil => intro an c _; simp [fkAux]
  | cons j js ih =>
    intro an c h
    cases an with
    | nil => simp at h
    | cons a an =>
      simp only [fkAux, List.ofFn_succ]
      congr 1
      exact ih an _ (by simpa using h)

/-- C1: `forward_kinematics` returns exactly `joints.count` poses, in joint
document order, where the pose appended for joint `i` is the left-to-right
composition, starting from the identity, of each preceding joint's static
origin transform followed by its joint rotation
(`cumulative = cumulative * T_o * T_r`). -/
theorem fk_returns_cumulative_poses (joints : List JointSpec)
    (angles : List ℝ) (h : angles.length = joints.length) :
    (forward_kinematics joints angles).length = joints.length ∧
    forward_kinematics joints angles =
      List.ofFn (fun i : Fin joints.length => cumulPose joints angles i) := by
  have he : forward_kinematics joints angles =
      List.ofFn (fun i : Fin joints.length => cumulPose joints angles i) := by
    rw [forward_kinematics, fkAux_eq_ofFn joints angles 1 h]
    rfl
  exact ⟨by rw [he, List.length_ofFn], he⟩

/-- The joint whose fields are used at concrete inputs: default origin,
default axis `[0, 0, 1]`, default limits. -/
noncomputable def jZ : JointSpec :=
  ⟨some "joint1", some "revolute", some "base_link", some "link1",
    ![0, 0, 0], ![0, 0, 0], ![0, 0, 1], -π, π⟩

theorem fk_returns_cumulative_poses_witness :
    [(0 : ℝ)].length = [jZ].length ∧
    ((forward_kinematics [jZ] [0]).length = [jZ].length ∧
      forward_kinematics [jZ] [0] =
        List.ofFn (fun i : Fin [jZ].length => cumulPose [jZ] [0] i)) :=
  ⟨rfl, fk_returns_cumulative_poses [jZ] [0] rfl⟩

/-- C2: the joint rotation transform is a pure rotation about the unique
canonical axis whose component in the declared axis vector has magnitude
greater than 0.5, by the supplied angle, and the identity when no component
exceeds 0.5 in magnitude. -/
theorem jointRotation_canonical_axis (a : Vec3) (angle : ℝ) :
    (|a 0| ≤ 0.5 → |a 1| ≤ 0.5 → 0.5 < |a 2| →
        jointRotation a angle = homog (pureRotZ angle) ![0, 0, 0])
  ∧ (|a 0| ≤ 0.5 → 0.5 < |a 1| → |a 2| ≤ 0.5 →
        jointRotation a angle = homog (pureRotY angle) ![0, 0, 0])
  ∧ (0.5 < |a 0| → |a 1| ≤ 0.5 → |a 2| ≤ 0.5 →
        jointRotation a angle = homog (pureRotX angle) ![0, 0, 0])
  ∧ (|a 0| ≤ 0.5 → |a 1| ≤ 0.5 → |a 2| ≤ 0.5 →
        jointRotation a angle = 1) := by
  refine ⟨fun _ _ h2 => ?_, fun _ h1 h2 => ?_, fun h0 h1 h2 => ?_,
    fun h0 h1 h2 => ?_⟩
  · rw [jointRotation, if_pos h2, rotation_matrix_z]
  · rw [jointRotation, if_neg (not_lt.2 h2), if_pos h1, rotation_matrix_y]
  · rw [jointRotation, if_neg (not_lt.2 h2), if_neg (not_lt.2 h1),
      if_pos h0, rotation_matrix_x]
  · rw [jointRotation, if_neg (not_lt.2 h2), if_neg (not_lt.2 h1),
      if_neg (not_lt.2 h0)]

theorem jointRotation_canonical_axis_witness :
    (|(![0, 0, 1] : Vec3) 0| ≤ 0.5 ∧ |(![0, 0, 1] : Vec3) 1| ≤ 0.5 ∧
        0.5 < |(![0, 0, 1] : Vec3) 2|) ∧
    jointRotation ![0, 0, 1] 1 = homog (pureRotZ 1) ![0, 0, 0] := by
  have h0 : |(![0, 0, 1] : Vec3) 0| ≤ 0.5 := by norm_num
  have h1 : |(![0, 0, 1] : Vec3) 1| ≤ 0.5 := by norm_num
  have h2 : 0.5 < |(![0, 0, 1] : Vec3) 2| := by norm_num
  exact ⟨⟨h0, h1, h2⟩, (jointRotation_canonical_axis ![0, 0, 1] 1).1 h0 h1 h2⟩

lemma jointRotation_form (axis : Vec3) (angle : ℝ) :
    ∃ R, jointRotation axis angle = homog R ![0, 0, 0] ∧ IsRot R := by
  unfold jointRotation
  split
  · exact ⟨_, rfl, isRot_rotation_matrix 0 0 angle⟩
  split
  · exact ⟨_, rfl, isRot_rotation_matrix 0 angle 0⟩
  split
  · exact ⟨_, rfl, isRot_rotation_matrix angle 0 0⟩
  · exact ⟨1, homog_one.symm, isRot_one⟩

lemma fkAux_rigid (js : List JointSpec) :
    ∀ (an : List ℝ) (R0 : Mat3) (t0 : Vec3), IsRot R0 →
    ∀ M ∈ fkAux (homog R0 t0) js an, ∃ R t, M = homog R t ∧ IsRot R := by
  induction js with
  | nil => intro an R0 t0 _ M hM; simp [fkAux] at hM
  | cons j js ih =>
    intro an R0 t0 h0 M hM
    cases an with
    | nil => simp [fkAux] at hM
    | cons a an =>
      obtain ⟨Rr, hRr, hRrRot⟩ := jointRotation_form j.axis a
      have hc : homog R0 t0 * T_origin j * jointRotation j.axis a =
          homog ((R0 * rotation_matrix (j.origin_rpy 0) (j.origin_rpy 1)
            (j.origin_rpy 2)) * Rr)
            (fun i => (R0 * rotation_matrix (j.origin_rpy 0) (j.origin_rpy 1)
                (j.origin_rpy 2)) i 0 * (![0, 0, 0] : Vec3) 0 +
              (R0 * rotation_matrix (j.origin_rpy 0) (j.origin_rpy 1)
                (j.origin_rpy 2)) i 1 * (![0, 0, 0] : Vec3) 1 +
              (R0 * rotation_matrix (j.origin_rpy 0) (j.origin_rpy 1)
                (j.origin_rpy 2)) i 2 * (![0, 0, 0] : Vec3) 2 +
              (fun i => R0 i 0 * j.origin_xyz 0 + R0 i 1 * j.origin_xyz 1 +
                R0 i 2 * j.origin_xyz 2 + t0 i) i) := by
        rw [T_origin, homog_mul, hRr, homog_mul]
      have hRot : IsRot ((R0 * rotation_matrix (j.origin_rpy 0)
          (j.origin_rpy 1) (j.origin_rpy 2)) * Rr) :=
        isRot_mul (isRot_mul h0 (isRot_rotation_matrix _ _ _)) hRrRot
      simp only [fkAux, List.mem_cons] at hM
      rcases hM with hM | hM
      · exact ⟨_, _, hM.trans hc, hRot⟩
      · rw [hc] at hM
        exact ih an _ _ hRot M hM

/-- C5: every pose produced by the forward-kinematics engine is a 4×4
homogeneous transform (bottom row `[0, 0, 0, 1]`) whose 3×3 rotation block
is orthonormal with determinant +1. -/
theorem fk_pose_rotation_block_so3 (joints : List JointSpec)
    (angles : List ℝ) (M : Mat4)
    (hM : M ∈ forward_kinematics joints angles) :
    (rotBlock M)ᵀ * rotBlock M = 1 ∧ (rotBlock M).det = 1 ∧
    M 3 0 = 0 ∧ M 3 1 = 0 ∧ M 3 2 = 0 ∧ M 3 3 = 1 := by
  rw [forward_kinematics, ← homog_one] at hM
  obtain ⟨R, t, hMeq, hR⟩ := fkAux_rigid joints angles 1 ![0, 0, 0]
    isRot_one M hM
  subst hMeq
  exact ⟨by rw [rotBlock_homog]; exact hR.1,
    by rw [rotBlock_homog]; exact hR.2, rfl, rfl, rfl, rfl⟩

theorem fk_pose_rotation_block_so3_witness :
    ((1 : Mat4) * T_origin jZ * jointRotation jZ.axis 0) ∈
      forward_kinematics [jZ] [0] ∧
    ((rotBlock (1 * T_origin jZ * jointRotation jZ.axis 0))ᵀ *
        rotBlock (1 * T_origin jZ * jointRotation jZ.axis 0) = 1 ∧
      (rotBlock (1 * T_origin jZ * jointRotation jZ.axis 0)).det = 1 ∧
      (1 * T_origin jZ * jointRotation jZ.axis 0) 3 0 = 0 ∧
      (1 * T_origin jZ * jointRotation jZ.axis 0) 3 1 = 0 ∧
      (1 * T_origin jZ * jointRotation jZ.axis 0) 3 2 = 0 ∧
      (1 * T_origin jZ * jointRotation jZ.axis 0) 3 3 = 1) := by
  have hmem : ((1 : Mat4) * T_origin jZ * jointRotation jZ.axis 0) ∈
      forward_kinematics [jZ] [0] := by
    simp [forward_kinematics, fkAux]
  exact ⟨hmem, fk_pose_rotation_block_so3 [jZ] [0] _ hmem⟩

lemma jointRotation_zero (axis : Vec3) : jointRotation axis 0 = 1 := by
  unfold jointRotation
  split
  · rw [rotation_matrix_zero, homog_one]
  split
  · rw [rotation_matrix_zero, homog_one]
  split
  · rw [rotation_matrix_zero, homog_one]
  · rfl

/-- Spec-side pose for joint `i` built from the static origin transforms
only (spec §8, zero-angle property). -/
noncomputable def originCumulPose (joints : List JointSpec) (i : ℕ) : Mat4 :=
  ((joints.take (i + 1)).map T_origin).foldl (· * ·) 1

lemma fkAux_zeros (js : List JointSpec) :
    ∀ c : Mat4, fkAux c js (List.replicate js.length 0) =
      List.ofFn (fun i : Fin js.length =>
        ((js.take (i.1 + 1)).map T_origin).foldl (· * ·) c) := by
  induction js with
  | nil => intro c; simp [fkAux]
  | cons j js ih =>
    intro c
    simp only [List.length_cons, List.replicate_succ, fkAux,
      jointRotation_zero, mul_one, List.ofFn_succ]
    congr 1
    rw [ih]
    exact congrArg List.ofFn (funext fun i => by
      simp [List.take_succ_cons, Fin.val_succ])

/-- C9: with all joint angles zero, every joint rotation transform is the
identity and the forward-kinematics output is exactly the cumulative
products of the static origin transforms alone. -/
theorem fk_zero_angles_origin_only (joints : List JointSpec) :
    (∀ axis : Vec3, jointRotation axis 0 = 1) ∧
    forward_kinematics joints (List.replicate joints.length 0) =
      List.ofFn (fun i : Fin joints.length => originCumulPose joints i) := by
  refine ⟨jointRotation_zero, ?_⟩
  rw [forward_kinematics, fkAux_zeros]
  rfl

/-- Equality of every `JointSpec` field except the declared `type`. -/
def sameButType (j k : JointSpec) : Prop :=
  j.name = k.name ∧ j.parent = k.parent ∧ j.child = k.child ∧
  j.origin_xyz = k.origin_xyz ∧ j.origin_rpy = k.origin_rpy ∧
  j.axis = k.axis ∧ j.limit_lower = k.limit_lower ∧
  j.limit_upper = k.limit_upper

lemma fkAux_type_irrelevant : ∀ {js1 js2 : List JointSpec},
    List.Forall₂ sameButType js1 js2 →
    ∀ (an : List ℝ) (c : Mat4), fkAux c js1 an = fkAux c js2 an := by
  intro js1
  induction js1 with
  | nil => intro js2 h an c; cases h; rfl
  | cons j js ih =>
    intro js2 h an c
    cases h with
    | cons hjk htl =>
      cases an with
      | nil => rfl
      | cons a an =>
        obtain ⟨-, -, -, hxyz, hrpy, haxis, -, -⟩ := hjk
        simp only [fkAux, T_origin, hxyz, hrpy, haxis, ih htl]

/-- C10: the forward-kinematics output ignores the joints' declared `type`
field entirely — two models identical except for joint types (for example
`revolute` versus `fixed`) yield identical pose lists for every angle
vector. -/
theorem fk_ignores_joint_type (js1 js2 : List JointSpec) (angles : List ℝ)
    (h : List.Forall₂ sameButType js1 js2) :
    forward_kinematics js1 angles = forward_kinematics js2 angles :=
  fkAux_type_irrelevant h angles 1

/-- `jZ` with the declared type changed from `revolute` to `fixed`. -/
noncomputable def jZfixed : JointSpec :=
  ⟨some "joint1", some "fixed", some "base_link", some "link1",
    ![0, 0, 0], ![0, 0, 0], ![0, 0, 1], -π, π⟩

theorem fk_ignores_joint_type_witness :
    List.Forall₂ sameButType [jZ] [jZfixed] ∧
    forward_kinematics [jZ] [1] = forward_kinematics [jZfixed] [1] := by
  have h : List.Forall₂ sameButType [jZ] [jZfixed] := by
    refine List.Forall₂.cons ?_ List.Forall₂.nil
    simp [sameButType, jZ, jZfixed]
  exact ⟨h, fk_ignores_joint_type [jZ] [jZfixed] [1] h⟩

/-- The fixed angular samples `np.linspace(0, 2 * np.pi, 20)` used by the
cylinder builders (`n_segments = 20`; linspace includes both endpoints, so
the step is `2π / 19`). -/
noncomputable def cylThetas : List ℝ :=
  List.ofFn fun k : Fin 20 => 2 * π * k.1 / 19

/-- A `go.Mesh3d` payload: vertex buffer (bundling the code's parallel
`x`, `y`, `z` lists into points) and the three parallel triangle index
lists `i`, `j`, `k`. -/
structure Mesh3d where
  verts : List Vec3
  faceI : List ℕ
  faceJ : List ℕ
  faceK : List ℕ
  color : String
  opacity : ℝ

/-- Side-wall entries of the `i` index list (visualization.py lines
177-186): 19 segment quads, three triangles each, then the closing
triple. -/
def sideI : List ℕ :=
  ((List.range 19).flatMap fun seg => [seg, seg, seg + 20]) ++ [19, 19, 39]

/-- Side-wall entries of the `j` index list. -/
def sideJ : List ℕ :=
  ((List.range 19).flatMap fun seg => [seg + 1, seg + 20, seg + 21]) ++
    [0, 20, 20]

/-- Side-wall entries of the `k` index list. -/
def sideK : List ℕ :=
  ((List.range 19).flatMap fun seg => [seg + 20, seg + 21, seg + 1]) ++
    [20, 39, 0]

/-- Cap entries of the `i` index list (visualization.py lines 199-206):
every cap triangle starts at center-bottom (40) or center-top (41). -/
def capI : List ℕ :=
  ((List.range 19).flatMap fun _ => [40, 41]) ++ [40, 41]

/-- Cap entries of the `j` index list. -/
def capJ : List ℕ :=
  ((List.range 19).flatMap fun seg => [seg, seg + 20]) ++ [19, 39]

/-- Cap entries of the `k` index list. -/
def capK : List ℕ :=
  ((List.range 19).flatMap fun seg => [seg + 1, seg + 21]) ++ [0, 20]

/-- `create_cylinder_mesh(radius, length, transform, color)`
(visualization.py lines 153-215): two rings of 20 vertices (local
`z = 0` and `z = length`), every vertex pushed through `transform`, then
the two transformed center vertices, with the side and cap index lists. -/
noncomputable def create_cylinder_mesh (radius length : ℝ)
    (transform : Mat4) (color : String) : Mesh3d where
  verts :=
    (([0, length] : List ℝ).flatMap fun zi =>
      cylThetas.map fun t =>
        applyT transform ![radius * Real.cos t, radius * Real.sin t, zi])
    ++ [applyT transform ![0, 0, 0], applyT transform ![0, 0, length]]
  faceI := sideI ++ capI
  faceJ := sideJ ++ capJ
  faceK := sideK ++ capK
  color := color
  opacity := 0.7

/-- Spec-side local-frame cylinder template (spec §4.3): a ring of 20
vertices at `z = 0`, a ring of 20 vertices at `z = length`, then the added
center-bottom and center-top vertices. -/
noncomputable def localCylinderVerts (radius length : ℝ) : List Vec3 :=
  (cylThetas.map fun t => ![radius * Real.cos t, radius * Real.sin t, 0])
  ++ (cylThetas.map fun t => ![radius * Real.cos t, radius * Real.sin t, length])
  ++ [![0, 0, 0], ![0, 0, length]]

set_option maxRecDepth 8000 in
/-- C6: the cylinder builder uses the fixed 20-sample angular resolution,
emits the two 20-vertex rings plus the two added cap-center vertices (42
vertices in all), each local vertex transformed into world space by the
pose; its 100 triangles split into 60 side-wall entries referencing only
ring vertices (indices < 40) and 40 fan-cap entries whose first index is
always one of the added centers (40 or 41), all indices in range. -/
theorem cylinder_mesh_tessellation (radius length : ℝ) (T : Mat4)
    (c : String) :
    (create_cylinder_mesh radius length T c).verts =
      (localCylinderVerts radius length).map (applyT T)
  ∧ cylThetas.length = 20
  ∧ (create_cylinder_mesh radius length T c).verts.length = 42
  ∧ (create_cylinder_mesh radius length T c).faceI.length = 100
  ∧ (create_cylinder_mesh radius length T c).faceJ.length = 100
  ∧ (create_cylinder_mesh radius length T c).faceK.length = 100
  ∧ (∀ x ∈ (create_cylinder_mesh radius length T c).faceI ++
        (create_cylinder_mesh radius length T c).faceJ ++
        (create_cylinder_mesh radius length T c).faceK, x < 42)
  ∧ (∀ x ∈ (create_cylinder_mesh radius length T c).faceI.take 60 ++
        (create_cylinder_mesh radius length T c).faceJ.take 60 ++
        (create_cylinder_mesh radius length T c).faceK.take 60, x < 40)
  ∧ (∀ x ∈ (create_cylinder_mesh radius length T c).faceI.drop 60,
        x = 40 ∨ x = 41) := by
  have hI : (create_cylinder_mesh radius length T c).faceI =
      sideI ++ capI := rfl
  have hJ : (create_cylinder_mesh radius length T c).faceJ =
      sideJ ++ capJ := rfl
  have hK : (create_cylinder_mesh radius length T c).faceK =
      sideK ++ capK := rfl
  refine ⟨?_, ?_, ?_, ?_, ?_, ?_, ?_, ?_, ?_⟩
  · simp [create_cylinder_mesh, localCylinderVerts, Function.comp_def]
  · simp [cylThetas]
  · simp [create_cylinder_mesh, cylThetas]
  · rw [hI]; decide
  · rw [hJ]; decide
  · rw [hK]; decide
  · rw [hI, hJ, hK]; decide
  · rw [hI, hJ, hK]; decide
  · rw [hI]; decide

/-- `np.linalg.norm` of a 3-vector. -/
noncomputable def norm3 (v : Vec3) : ℝ :=
  Real.sqrt (v 0 ^ 2 + v 1 ^ 2 + v 2 ^ 2)

/-- `np.allclose(u, v)` with NumPy's default tolerances
(`rtol = 1e-5`, `atol = 1e-8`), componentwise on 3-vectors. -/
def allclose3 (u v : Vec3) : Prop :=
  |u 0 - v 0| ≤ 1e-8 + 1e-5 * |v 0| ∧
  |u 1 - v 1| ≤ 1e-8 + 1e-5 * |v 1| ∧
  |u 2 - v 2| ≤ 1e-8 + 1e-5 * |v 2|

noncomputable instance (u v : Vec3) : Decidable (allclose3 u v) := by
  unfold allclose3; infer_instance

/-- `np.cross`. -/
noncomputable def cross3 (a b : Vec3) : Vec3 :=
  ![a 1 * b 2 - a 2 * b 1, a 2 * b 0 - a 0 * b 2, a 0 * b 1 - a 1 * b 0]

noncomputable def zAxis : Vec3 := ![0, 0, 1]

/-- `create_link_cylinder(start_pos, end_pos, radius, color)`
(visualization.py lines 250-344).  Returns `None` for a segment shorter
than `1e-6`; otherwise builds the local-frame cylinder of length
`|end − start|`, rotates it onto the segment direction (identity /
antiparallel flip / Rodrigues formula), translates by `start_pos`, and
appends the two cap-center vertices `start_pos`, `end_pos`. -/
noncomputable def create_link_cylinder (start_pos end_pos : Vec3)
    (radius : ℝ) (color : String) : Option Mesh3d :=
  let direction := end_pos - start_pos
  let length := norm3 direction
  if length < 1e-6 then none
  else
    let dirn : Vec3 := fun i => direction i / length
    let localPts :=
      (([0, length] : List ℝ).flatMap fun zi =>
        cylThetas.map fun t => (![radius * Real.cos t, radius * Real.sin t, zi] : Vec3))
    let rotation : Mat3 :=
      if allclose3 dirn zAxis then 1
      else if allclose3 dirn (-zAxis) then !![-1, 0, 0; 0, 1, 0; 0, 0, -1]
      else
        let v := cross3 zAxis dirn
        let s := norm3 v
        let co := dirn 2
        let vx : Mat3 := !![0, -(v 2), v 1; v 2, 0, -(v 0); -(v 1), v 0, 0]
        1 + vx + ((1 - co) / (s * s)) • (vx * vx)
    let verts := (localPts.map fun p => rotation.mulVec p + start_pos)
      ++ [start_pos, end_pos]
    some ⟨verts, sideI ++ capI, sideJ ++ capJ, sideK ++ capK, color, 0.8⟩

lemma create_link_cylinder_eq_none_iff (start_pos end_pos : Vec3)
    (radius : ℝ) (color : String) :
    create_link_cylinder start_pos end_pos radius color = none ↔
      norm3 (end_pos - start_pos) < 1e-6 := by
  simp only [create_link_cylinder]
  split
  · simp [*]
  · simp [*]

/-- C3: the link-connector builder emits no primitive exactly when the
two endpoints are closer than `1e-6`; at distance at least `1e-6` it
emits one (`isSome`). -/
theorem link_cylinder_degenerate_skip (start_pos end_pos : Vec3)
    (radius : ℝ) (color : String) :
    (create_link_cylinder start_pos end_pos radius color = none ↔
      norm3 (end_pos - start_pos) < 1e-6)
  ∧ (create_link_cylinder start_pos end_pos radius color ≠ none ↔
      1e-6 ≤ norm3 (end_pos - start_pos)) := by
  refine ⟨create_link_cylinder_eq_none_iff _ _ _ _, ?_⟩
  rw [ne_eq, create_link_cylinder_eq_none_iff]
  exact not_lt

/-- `create_joint_connector(position, size, color)` (visualization.py
lines 346-369): a small cube, translated only (no rotation), with the
fixed 12-triangle index lists. -/
noncomputable def create_joint_connector (position : Vec3) (size : ℝ)
    (color : String) : Mesh3d where
  verts :=
    ([![-size, -size, -size], ![size, -size, -size], ![size, size, -size],
      ![-size, size, -size], ![-size, -size, size], ![size, -size, size],
      ![size, size, size], ![-size, size, size]] : List Vec3).map
      fun v => v + position
  faceI := [0, 0, 0, 1, 1, 4, 4, 5, 2, 2, 7, 7]
  faceJ := [1, 2, 4, 2, 5, 5, 7, 6, 3, 6, 3, 6]
  faceK := [2, 3, 5, 6, 6, 1, 0, 1, 7, 7, 4, 2]
  color := color
  opacity := 0.9

/-- The fixed link-connector palette (visualization.py line 442),
6 entries. -/
def link_colors : List String :=
  ["#FF6B6B", "#4ECDC4", "#45B7D1", "#FFA07A", "#98D8C8", "#F7DC6F"]

/-- The fixed joint-marker palette (visualization.py line 455),
7 entries. -/
def joint_colors : List String :=
  ["#808080", "#FF8C00", "#87CEEB", "#9370DB", "#87CEEB", "#9370DB",
    "#4169E1"]

/-- The joint-position list of the skeleton branch (visualization.py
lines 435-438): the base origin followed by each transform's translation
column `transform[:3, 3]`. -/
noncomputable def jointPositions (transforms : List Mat4) : List Vec3 :=
  ![0, 0, 0] :: (transforms.map fun T => ![T 0 3, T 1 3, T 2 3])

/-- Spec-side connector list: one `create_link_cylinder` per consecutive
pair of joint positions, in chain order, degenerate pairs skipped, colored
by segment index modulo the 6-entry palette. -/
noncomputable def skeletonConnectors (positions : List Vec3) :
    List Mesh3d :=
  ((positions.zip positions.tail).enum).filterMap fun ip =>
    create_link_cylinder ip.2.1 ip.2.2 0.015
      (link_colors.getD (ip.1 % 6) "#FF6B6B")

/-- Spec-side marker list: one `create_joint_connector` per entry of
`zip(positions, joint_colors)`, in chain order (Python `zip` truncates at
the shorter list). -/
noncomputable def skeletonMarkers (positions : List Vec3) : List Mesh3d :=
  (positions.zip joint_colors).map fun pc =>
    create_joint_connector pc.1 0.02 pc.2

/-- The skeleton branch of `create_robot_traces` (visualization.py lines
431-459): link cylinders between consecutive joint positions (skipping the
`None` degenerate ones), then one joint-connector cube per
`zip(positions, joint_colors)` entry. -/
noncomputable def create_robot_traces_skeleton (joints : List JointSpec)
    (angles : List ℝ) : List Mesh3d :=
  let transforms := forward_kinematics joints angles
  let positions := jointPositions transforms
  let connectors := ((positions.zip positions.tail).enum).filterMap
    fun ip => create_link_cylinder ip.2.1 ip.2.2 0.015
      (link_colors.getD (ip.1 % 6) "#FF6B6B")
  let markers := (positions.zip joint_colors).map fun pc =>
    create_joint_connector pc.1 0.02 pc.2
  connectors ++ markers

/-- C8 (amended): in skeleton mode the output is all link connectors in
chain order followed by all joint markers in chain order, but the marker
count is `min(#positions, 7)` — one marker per joint position only while
the position count does not exceed the 7-entry marker palette. -/
theorem skeleton_traces_order (joints : List JointSpec)
    (angles : List ℝ) :
    create_robot_traces_skeleton joints angles =
      skeletonConnectors
        (jointPositions (forward_kinematics joints angles)) ++
      skeletonMarkers (jointPositions (forward_kinematics joints angles))
  ∧ (skeletonMarkers
        (jointPositions (forward_kinematics joints angles))).length =
      min (jointPositions (forward_kinematics joints angles)).length 7
  ∧ (jointPositions (forward_kinematics joints angles)).length =
      (forward_kinematics joints angles).length + 1 := by
  refine ⟨rfl, ?_, ?_⟩
  · simp [skeletonMarkers, joint_colors]
  · simp [jointPositions]

lemma T_origin_jZ : T_origin jZ = 1 := by
  show homog (rotation_matrix 0 0 0) ![0, 0, 0] = 1
  rw [rotation_matrix_zero, homog_one]

lemma create_link_cylinder_self (p : Vec3) (radius : ℝ) (color : String) :
    create_link_cylinder p p radius color = none := by
  rw [create_link_cylinder_eq_none_iff, sub_self]
  have h : norm3 0 = 0 := by simp [norm3]
  rw [h]
  norm_num

/-- A 7-joint chain of default joints (origin identity, axis `[0, 0, 1]`):
one more joint than the 6-axis arm the palettes were sized for. -/
noncomputable def jointChain7 : List JointSpec :=
  [jZ, jZ, jZ, jZ, jZ, jZ, jZ]

noncomputable def angles7 : List ℝ := [0, 0, 0, 0, 0, 0, 0]

lemma fk_jointChain7 :
    forward_kinematics jointChain7 angles7 = [1, 1, 1, 1, 1, 1, 1] := by
  simp [forward_kinematics, fkAux, jointChain7, angles7, T_origin_jZ,
    jointRotation_zero]

lemma jointPositions_jointChain7 :
    jointPositions [1, 1, 1, 1, 1, 1, 1] =
      [![0, 0, 0], ![0, 0, 0], ![0, 0, 0], ![0, 0, 0], ![0, 0, 0],
        ![0, 0, 0], ![0, 0, 0], ![0, 0, 0]] := by
  have h0 : (1 : Mat4) 0 3 = 0 := Matrix.one_apply_ne (by decide)
  have h1 : (1 : Mat4) 1 3 = 0 := Matrix.one_apply_ne (by decide)
  have h2 : (1 : Mat4) 2 3 = 0 := Matrix.one_apply_ne (by decide)
  simp [jointPositions, h0, h1, h2]

/-- C8 counterexample: with 7 joints there are 8 joint positions
(base + 7), yet the whole skeleton output contains only 7 primitives
(no connectors — all segments are degenerate here — and only
`min(8, 7) = 7` markers), so it cannot contain one marker for each of
the 8 positions. -/
theorem skeleton_traces_marker_truncation :
    (create_robot_traces_skeleton jointChain7 angles7).length = 7 ∧
    (jointPositions (forward_kinematics jointChain7 angles7)).length
      = 8 := by
  constructor
  · have hconn : ∀ x ∈ (([(![0, 0, 0], ![0, 0, 0]), (![0, 0, 0], ![0, 0, 0]),
        (![0, 0, 0], ![0, 0, 0]), (![0, 0, 0], ![0, 0, 0]),
        (![0, 0, 0], ![0, 0, 0]), (![0, 0, 0], ![0, 0, 0]),
        (![0, 0, 0], ![0, 0, 0])] : List (Vec3 × Vec3)).enum),
        create_link_cylinder x.2.1 x.2.2 0.015
          (link_colors.getD (x.1 % 6) "#FF6B6B") = none := by
      intro x hx
      rw [List.mem_enum_iff_getElem?] at hx
      obtain ⟨a, p, q⟩ := x
      rcases a with _|_|_|_|_|_|_|a <;> simp_all <;>
        rw [← hx.1, ← hx.2] <;> exact create_link_cylinder_self _ _ _
    have hconn2 : (([(![0, 0, 0], ![0, 0, 0]), (![0, 0, 0], ![0, 0, 0]),
        (![0, 0, 0], ![0, 0, 0]), (![0, 0, 0], ![0, 0, 0]),
        (![0, 0, 0], ![0, 0, 0]), (![0, 0, 0], ![0, 0, 0]),
        (![0, 0, 0], ![0, 0, 0])] : List (Vec3 × Vec3)).enum.filterMap
          (fun ip => create_link_cylinder ip.2.1 ip.2.2 0.015
            (link_colors.getD (ip.1 % 6) "#FF6B6B"))) = [] :=
      List.filterMap_eq_nil_iff.mpr hconn
    simp only [create_robot_traces_skeleton, fk_jointChain7,
      jointPositions_jointChain7]
    simp [hconn2, joint_colors]
    exact fun a p q hm => by simpa [List.getD] using hconn (a, p, q) hm
  · rw [fk_jointChain7, jointPositions_jointChain7]
    rfl

/-- An element of the XML-like robot-description document: tag,
attributes, direct children (the parser only ever navigates direct
children, matching `ElementTree.find`/`findall` with a plain tag). -/
inductive XElem where
  | mk (tag : String) (attrs : List (String × String))
      (children : List XElem)

def XElem.tag : XElem → String
  | .mk t _ _ => t

def XElem.attrs : XElem → List (String × String)
  | .mk _ a _ => a

def XElem.children : XElem → List XElem
  | .mk _ _ c => c

/-- `element.get(key)`: the attribute value, or `None`. -/
def XElem.get (e : XElem) (k : String) : Option String :=
  (e.attrs.find? fun p => p.1 == k).map Prod.snd

/-- `element.find(tag)`: the first direct child with the tag, or `None`. -/
def XElem.find (e : XElem) (t : String) : Option XElem :=
  e.children.find? fun c => c.tag == t

/-- `element.findall(tag)`: all direct children with the tag, in order. -/
def XElem.findall (e : XElem) (t : String) : List XElem :=
  e.children.filter fun c => c.tag == t

/-- The Python exceptions that can abort `parse_urdf` (all fatal to
`load`; the spec's taxonomy groups them as `ParseError`):
`AttributeError` (`.get`/`.find` called on `None`), `TypeError`
(`float(None)`), `ValueError` (`float` on a malformed string). -/
inductive LoadError
  | attributeError
  | typeError
  | valueError

/-- Python `float(s)`, abstracted over the numeric grammar by the
parameter `pf`; a string `float` rejects raises `ValueError`. -/
def parseFloat (pf : String → Option ℝ) (s : String) :
    Except LoadError ℝ :=
  match pf s with
  | some v => Except.ok v
  | none => Except.error LoadError.valueError

/-- `[float(x) for x in s.split()]`. -/
def parseFloatList (pf : String → Option ℝ) (s : String) :
    Except LoadError (List ℝ) :=
  ((s.splitOn " ").filter fun t => t ≠ "").mapM (parseFloat pf)

/-- `float(v)` where `v` is an attribute lookup: `float(None)` raises
`TypeError`. -/
def requireFloat (pf : String → Option ℝ) (v : Option String) :
    Except LoadError ℝ :=
  match v with
  | none => Except.error LoadError.typeError
  | some s => parseFloat pf s

structure OriginRaw where
  xyz : List ℝ
  rpy : List ℝ

structure LimitsRaw where
  lower : ℝ
  upper : ℝ

inductive VisualShape
  | cylinder (radius length : ℝ)
  | box (size : List ℝ)
  | mesh (filename : Option String) (size : List ℝ)

structure VisualRaw where
  origin : OriginRaw
  shape : VisualShape

structure JointRaw where
  name : Option String
  type : Option String
  parent : Option String
  child : Option String
  origin : OriginRaw
  axis : List ℝ
  limits : LimitsRaw

structure LinkRaw where
  name : Option String
  visual : Option VisualRaw

structure RobotModel where
  joints : List JointRaw
  links : List LinkRaw

/-- `_parse_origin` (visualization.py lines 48-53): missing element gives
the identity defaults; otherwise the `xyz`/`rpy` attributes (with string
defaults) are float-parsed. -/
noncomputable def parse_origin (pf : String → Option ℝ)
    (o : Option XElem) : Except LoadError OriginRaw :=
  match o with
  | none => Except.ok ⟨[0, 0, 0], [0, 0, 0]⟩
  | some e => do
      let xyz ← parseFloatList pf ((e.get "xyz").getD "0 0 0")
      let rpy ← parseFloatList pf ((e.get "rpy").getD "0 0 0")
      pure ⟨xyz, rpy⟩

/-- `_parse_axis` (visualization.py lines 55-58). -/
noncomputable def parse_axis (pf : String → Option ℝ)
    (a : Option XElem) : Except LoadError (List ℝ) :=
  match a with
  | none => Except.ok [0, 0, 1]
  | some e => parseFloatList pf ((e.get "xyz").getD "0 0 1")

/-- `_parse_limits` (visualization.py lines 60-66): a missing attribute
falls back to `±π` without any string parsing. -/
noncomputable def parse_limits (pf : String → Option ℝ)
    (l : Option XElem) : Except LoadError LimitsRaw :=
  match l with
  | none => Except.ok ⟨-π, π⟩
  | some e => do
      let lo ← match e.get "lower" with
        | none => pure (-π)
        | some s => parseFloat pf s
      let hi ← match e.get "upper" with
        | none => pure π
        | some s => parseFloat pf s
      pure ⟨lo, hi⟩

/-- `_parse_visual` of visualization.py (lines 68-99): no visual or no
geometry element gives `None`; a geometry with none of
cylinder/box/mesh also gives `None` (after the origin has been parsed). -/
noncomputable def parse_visual (pf : String → Option ℝ)
    (v : Option XElem) : Except LoadError (Option VisualRaw) :=
  match v with
  | none => Except.ok none
  | some ve =>
    match ve.find "geometry" with
    | none => Except.ok none
    | some geom => do
      let origin ← parse_origin pf (ve.find "origin")
      match geom.find "cylinder" with
      | some cyl => do
          let r ← requireFloat pf (cyl.get "radius")
          let l ← requireFloat pf (cyl.get "length")
          pure (some ⟨origin, VisualShape.cylinder r l⟩)
      | none =>
        match geom.find "box" with
        | some bx => do
            let size ← match bx.get "size" with
              | none => Except.error LoadError.attributeError
              | some s => parseFloatList pf s
            pure (some ⟨origin, VisualShape.box size⟩)
        | none =>
          match geom.find "mesh" with
          | some me =>
              pure (some ⟨origin,
                VisualShape.mesh (me.get "filename") [0.05, 0.05, 0.05]⟩)
          | none => pure none

/-- The joint extraction of `parse_urdf` (visualization.py lines 28-38):
`joint.find('parent').get('link')` raises `AttributeError` when the
`parent`/`child` element is missing, while `joint.get('type')` simply
stores `None` when the attribute is missing. -/
noncomputable def parse_joint (pf : String → Option ℝ) (j : XElem) :
    Except LoadError JointRaw := do
  let parentElem ← match j.find "parent" with
    | none => Except.error LoadError.attributeError
    | some e => pure e
  let childElem ← match j.find "child" with
    | none => Except.error LoadError.attributeError
    | some e => pure e
  let origin ← parse_origin pf (j.find "origin")
  let axis ← parse_axis pf (j.find "axis")
  let limits ← parse_limits pf (j.find "limit")
  pure ⟨j.get "name", j.get "type", parentElem.get "link",
    childElem.get "link", origin, axis, limits⟩

/-- The link extraction of `parse_urdf` (visualization.py lines 41-46). -/
noncomputable def parse_link (pf : String → Option ℝ) (l : XElem) :
    Except LoadError LinkRaw := do
  let v ← parse_visual pf (l.find "visual")
  pure ⟨l.get "name", v⟩

/-- `parse_urdf` (visualization.py lines 22-46): all `joint` children of
the root in document order, then all `link` children; the first raised
exception aborts the whole load with no model. -/
noncomputable def parse_urdf (pf : String → Option ℝ) (root : XElem) :
    Except LoadError RobotModel := do
  let js ← (root.findall "joint").mapM (parse_joint pf)
  let ls ← (root.findall "link").mapM (parse_link pf)
  pure ⟨js, ls⟩

lemma mapM_error_of_mem {α β : Type} (f : α → Except LoadError β)
    (l : List α) (x : α) (hx : x ∈ l)
    (hf : ∃ e, f x = Except.error e) :
    ∃ e, l.mapM f = Except.error e := by
  induction l with
  | nil => cases hx
  | cons a l ih =>
    rcases List.mem_cons.1 hx with rfl | hmem
    · obtain ⟨e, he⟩ := hf
      refine ⟨e, ?_⟩
      rw [List.mapM_cons, he]
      rfl
    · cases ha : f a with
      | error e =>
        refine ⟨e, ?_⟩
        rw [List.mapM_cons, ha]
        rfl
      | ok b =>
        obtain ⟨e, he⟩ := ih hmem
        refine ⟨e, ?_⟩
        rw [List.mapM_cons, ha]
        show (do
          let ys ← List.mapM f l
          pure (b :: ys) : Except LoadError (List β)) = Except.error e
        rw [he]
        rfl

lemma parse_joint_error_of_missing (pf : String → Option ℝ) (j : XElem)
    (hmiss : j.find "parent" = none ∨ j.find "child" = none) :
    ∃ e, parse_joint pf j = Except.error e := by
  rcases hmiss with h | h
  · exact ⟨LoadError.attributeError, by simp only [parse_joint, h]; rfl⟩
  · cases hp : j.find "parent" with
    | none =>
        exact ⟨LoadError.attributeError, by simp only [parse_joint, hp]; rfl⟩
    | some pe =>
        exact ⟨LoadError.attributeError,
          by simp only [parse_joint, hp, h]; rfl⟩

/-- C4 (amended): a structurally incomplete joint — one whose `parent` or
`child` element is missing — aborts the load with an exception and no
model is returned; but (see the counterexample) a joint with no `type`
attribute does NOT fail: its type is simply recorded as `None`. -/
theorem parse_urdf_missing_parent_child_fails (pf : String → Option ℝ)
    (root j : XElem) (hj : j ∈ root.findall "joint")
    (hmiss : j.find "parent" = none ∨ j.find "child" = none) :
    ∃ e, parse_urdf pf root = Except.error e := by
  obtain ⟨e, he⟩ := mapM_error_of_mem (parse_joint pf) _ j hj
    (parse_joint_error_of_missing pf j hmiss)
  exact ⟨e, by simp only [parse_urdf, he]; rfl⟩

/-- A syntactically complete joint element except for its `type`
attribute: `parent` and `child` are present, `type` is not. -/
def jointNoType : XElem :=
  .mk "joint" [("name", "joint1")]
    [.mk "parent" [("link", "base_link")] [],
      .mk "child" [("link", "link1")] []]

/-- A well-formed document whose only joint has no `type` attribute. -/
def docNoType : XElem :=
  .mk "robot" [("name", "arm")]
    [jointNoType, .mk "link" [("name", "base_link")] [],
      .mk "link" [("name", "link1")] []]

/-- C4 counterexample: loading a document whose joint element has no
`type` attribute succeeds — `joint.get('type')` stores `None` and no
exception is raised — contradicting the claim that a missing required
`type` makes the load fail. -/
theorem parse_urdf_missing_type_succeeds :
    parse_urdf (fun _ => none) docNoType =
      Except.ok ⟨[⟨some "joint1", none, some "base_link", some "link1",
          ⟨[0, 0, 0], [0, 0, 0]⟩, [0, 0, 1], ⟨-π, π⟩⟩],
        [⟨some "base_link", none⟩, ⟨some "link1", none⟩]⟩ := rfl

/-- A joint element with no `parent` child element. -/
def jointNoParent : XElem :=
  .mk "joint" [("name", "joint1"), ("type", "revolute")]
    [.mk "child" [("link", "link1")] []]

def docNoParent : XElem :=
  .mk "robot" [("name", "arm")] [jointNoParent]

theorem parse_urdf_missing_parent_child_fails_witness :
    jointNoParent ∈ docNoParent.findall "joint" ∧
    (jointNoParent.find "parent" = none ∨
      jointNoParent.find "child" = none) ∧
    ∃ e, parse_urdf (fun _ => none) docNoParent = Except.error e := by
  have hj : jointNoParent ∈ docNoParent.findall "joint" := by
    rw [show docNoParent.findall "joint" = [jointNoParent] from rfl]
    exact List.mem_singleton.mpr rfl
  exact ⟨hj, Or.inl rfl,
    parse_urdf_missing_parent_child_fails (fun _ => none) docNoParent
      jointNoParent hj (Or.inl rfl)⟩

/-- The matplotlib variant stores only cylinder/box shapes and may leave a
visual record with no shape at all (`visual_info` without a `'type'`
key). -/
inductive VisualShapeMpl
  | cylinder (radius length : ℝ)
  | box (size : List ℝ)

structure VisualRawMpl where
  origin : OriginRaw
  shape : Option VisualShapeMpl

/-- `_parse_visual` of visualization_matplotlib.py (lines 66-85): the
geometry element is looked up without a `None` check (so a visual with no
geometry raises `AttributeError` at `geom.find`), and a geometry with
neither cylinder nor box returns a visual record containing only the
origin — not `None`. -/
noncomputable def parse_visual_mpl (pf : String → Option ℝ)
    (v : Option XElem) : Except LoadError (Option VisualRawMpl) :=
  match v with
  | none => Except.ok none
  | some ve => do
    let origin ← parse_origin pf (ve.find "origin")
    match ve.find "geometry" with
    | none => Except.error LoadError.attributeError
    | some geom =>
      match geom.find "cylinder" with
      | some cyl => do
          let r ← requireFloat pf (cyl.get "radius")
          let l ← requireFloat pf (cyl.get "length")
          pure (some ⟨origin, some (VisualShapeMpl.cylinder r l)⟩)
      | none =>
        match geom.find "box" with
        | some bx => do
            let size ← match bx.get "size" with
              | none => Except.error LoadError.attributeError
              | some s => parseFloatList pf s
            pure (some ⟨origin, some (VisualShapeMpl.box size)⟩)
        | none => pure (some ⟨origin, none⟩)

/-- A link visual whose geometry declares only an unrecognized shape. -/
def sphereVisual : XElem :=
  .mk "visual" []
    [.mk "geometry" [] [.mk "sphere" [("radius", "0.1")] []]]

/-- C7 counterexample: on a visual whose geometry has no
cylinder/box/mesh child, the matplotlib loader records a visual with an
origin but no shape — not `none` — so "the loader records
VisualGeometry = none" fails for that cited implementation. -/
theorem mpl_unrecognized_geometry_not_none :
    parse_visual_mpl (fun _ => none) (some sphereVisual) =
      Except.ok (some ⟨⟨[0, 0, 0], [0, 0, 0]⟩, none⟩) ∧
    parse_visual_mpl (fun _ => none) (some sphereVisual) ≠
      Except.ok none := by
  have h : parse_visual_mpl (fun _ => none) (some sphereVisual) =
      Except.ok (some ⟨⟨[0, 0, 0], [0, 0, 0]⟩, none⟩) := rfl
  refine ⟨h, ?_⟩
  rw [h]
  simp

/-- C7 (amended): in the visualization.py loader, a link visual that
declares no recognized geometry (no geometry element at all, or a
geometry with no cylinder/box/mesh child) parses to `none` without error,
provided its origin attribute parses (the code parses the origin before
inspecting the geometry children); the matplotlib loader deviates, see
the counterexample. -/
theorem parse_visual_unrecognized_none (pf : String → Option ℝ)
    (ve : XElem)
    (hgeom : ∀ g, ve.find "geometry" = some g →
      g.find "cylinder" = none ∧ g.find "box" = none ∧
      g.find "mesh" = none)
    (horigin : ∃ o, parse_origin pf (ve.find "origin") = Except.ok o) :
    parse_visual pf (some ve) = Except.ok none := by
  cases hg : ve.find "geometry" with
  | none => simp [parse_visual, hg]
  | some g =>
    obtain ⟨hc, hb, hm⟩ := hgeom g hg
    obtain ⟨o, ho⟩ := horigin
    simp [parse_visual, hg, hc, hb, hm, ho]

theorem parse_visual_unrecognized_none_witness :
    (∀ g, sphereVisual.find "geometry" = some g →
      g.find "cylinder" = none ∧ g.find "box" = none ∧
      g.find "mesh" = none) ∧
    (∃ o, parse_origin (fun _ => none) (sphereVisual.find "origin") =
      Except.ok o) ∧
    parse_visual (fun _ => none) (some sphereVisual) = Except.ok none := by
  have hgeom : ∀ g, sphereVisual.find "geometry" = some g →
      g.find "cylinder" = none ∧ g.find "box" = none ∧
      g.find "mesh" = none := by
    intro g hg
    rw [show sphereVisual.find "geometry" =
      some (.mk "geometry" [] [.mk "sphere" [("radius", "0.1")] []])
      from rfl] at hg
    obtain rfl := Option.some.inj hg
    exact ⟨rfl, rfl, rfl⟩
  have horigin : ∃ o, parse_origin (fun _ => none)
      (sphereVisual.find "origin") = Except.ok o :=
    ⟨⟨[0, 0, 0], [0, 0, 0]⟩, rfl⟩
  exact ⟨hgeom, horigin,
    parse_visual_unrecognized_none (fun _ => none) sphereVisual hgeom
      horigin⟩

end SMART
